import Mathlib

/-!
Shallow embedding of the Windows serial-port layer of serialport-rs
(src/windows/dcb.rs, src/windows/com.rs, src/windows/enumerate.rs) and proofs
about its configuration translator, open/close resource lifecycle, timeout
read model and port enumeration.

Machine integers are modelled as `Nat`; the Rust `u32` bitwise complement
`!m` is rendered as `0xFFFFFFFF ^^^ m`.  Native (Win32) calls are modelled by
explicit environments describing each call's outcome, so the functions under
test are pure and executable.
-/

/-- Number of data bits per character (crate enum `DataBits`; the `Unknown`
variant is the read-back sentinel used by `COMPort::data_bits`). -/
inductive DataBits where
  | Five
  | Six
  | Seven
  | Eight
  | Unknown
deriving DecidableEq, Repr

/-- Parity mode (crate enum `Parity` with read-back sentinel `Unknown`). -/
inductive Parity where
  | None
  | Odd
  | Even
  | Unknown
deriving DecidableEq, Repr

/-- Stop-bit mode (crate enum `StopBits` with read-back sentinel `Unknown`). -/
inductive StopBits where
  | One
  | OnePointFive
  | Two
  | Unknown
deriving DecidableEq, Repr

/-- Flow-control mode (crate enum `FlowControl` with read-back sentinel
`Unknown`). -/
inductive FlowControl where
  | None
  | Software
  | Hardware
  | Unknown
deriving DecidableEq, Repr

/-- Crate error type as used by the Windows sources: `Error::InvalidArgument`
carries the message string built in dcb.rs; `Io` stands for an error built
from the OS last-error code (`Error::last_os_error().into()`). -/
inductive Error where
  | InvalidArgument (msg : String)
  | Io
deriving DecidableEq, Repr

/-- DTR drive modes (dcb.rs `enum DtrControl`, discriminants 0, 1, 2). -/
inductive DtrControl where
  | Disable
  | Enable
  | Handshake
deriving DecidableEq, Repr

/-- Numeric discriminant of a `DtrControl` value (Rust `value as u32`). -/
def DtrControl.code : DtrControl → Nat
  | .Disable => 0x00
  | .Enable => 0x01
  | .Handshake => 0x02

/-- RTS drive modes (dcb.rs `enum RtsControl`, discriminants 0, 1, 2, 3). -/
inductive RtsControl where
  | Disable
  | Enable
  | Handshake
  | Toggle
deriving DecidableEq, Repr

/-- Numeric discriminant of an `RtsControl` value (Rust `value as u32`). -/
def RtsControl.code : RtsControl → Nat
  | .Disable => 0x00
  | .Enable => 0x01
  | .Handshake => 0x02
  | .Toggle => 0x03

/-- The Win32 `DCB` device control block (windows-sys layout, integer fields
as `Nat`; `bitfield` is the packed `_bitfield` word of boolean/2-bit flags). -/
structure DCB where
  DCBlength : Nat := 0
  BaudRate : Nat := 0
  bitfield : Nat := 0
  wReserved : Nat := 0
  XonLim : Nat := 0
  XoffLim : Nat := 0
  ByteSize : Nat := 0
  Parity : Nat := 0
  StopBits : Nat := 0
  XonChar : Nat := 0
  XoffChar : Nat := 0
  ErrorChar : Nat := 0
  EofChar : Nat := 0
  EvtChar : Nat := 0
  wReserved1 : Nat := 0
deriving DecidableEq, Repr

/-- Win32 parity constants (windows-sys values). -/
def NOPARITY : Nat := 0

/-- Win32 odd-parity constant. -/
def ODDPARITY : Nat := 1

/-- Win32 even-parity constant. -/
def EVENPARITY : Nat := 2

/-- Win32 one-stop-bit constant. -/
def ONESTOPBIT : Nat := 0

/-- Win32 1.5-stop-bits constant. -/
def ONE5STOPBITS : Nat := 1

/-- Win32 two-stop-bits constant. -/
def TWOSTOPBITS : Nat := 2

/-- All 32 bits set; `U32MASK ^^^ m` models the Rust `u32` complement `!m`. -/
def U32MASK : Nat := 0xFFFFFFFF

/-- Shared body of the single-bit setters of `impl BitOperation for DCB`
(dcb.rs): `if value { b |= 1 << n } else { b &= !(1 << n) }`. -/
def setBitflag (b : Nat) (n : Nat) (value : Bool) : Nat :=
  if value then b ||| 1 <<< n else b &&& (U32MASK ^^^ 1 <<< n)

/-- Shared body of the two-bit setters of `impl BitOperation for DCB`
(dcb.rs): `b &= !(0b11 << n); b |= (code & 0b11) << n`. -/
def setTwoBitflag (b : Nat) (n : Nat) (code : Nat) : Nat :=
  (b &&& (U32MASK ^^^ 3 <<< n)) ||| ((code &&& 3) <<< n)

/-- dcb.rs `set_fBinary` (bit 0). -/
def DCB.set_fBinary (dcb : DCB) (value : Bool) : DCB :=
  { dcb with bitfield := setBitflag dcb.bitfield 0 value }

/-- dcb.rs `set_fParity` (bit 1). -/
def DCB.set_fParity (dcb : DCB) (value : Bool) : DCB :=
  { dcb with bitfield := setBitflag dcb.bitfield 1 value }

/-- dcb.rs `set_fOutxCtsFlow` (bit 2). -/
def DCB.set_fOutxCtsFlow (dcb : DCB) (value : Bool) : DCB :=
  { dcb with bitfield := setBitflag dcb.bitfield 2 value }

/-- dcb.rs `set_fOutxDsrFlow` (bit 3). -/
def DCB.set_fOutxDsrFlow (dcb : DCB) (value : Bool) : DCB :=
  { dcb with bitfield := setBitflag dcb.bitfield 3 value }

/-- dcb.rs `set_fDtrControl` (bits 4-5). -/
def DCB.set_fDtrControl (dcb : DCB) (value : DtrControl) : DCB :=
  { dcb with bitfield := setTwoBitflag dcb.bitfield 4 value.code }

/-- dcb.rs `set_fDsrSensitivity` (bit 6). -/
def DCB.set_fDsrSensitivity (dcb : DCB) (value : Bool) : DCB :=
  { dcb with bitfield := setBitflag dcb.bitfield 6 value }

/-- dcb.rs `set_fTXContinueOnXoff` (bit 7). -/
def DCB.set_fTXContinueOnXoff (dcb : DCB) (value : Bool) : DCB :=
  { dcb with bitfield := setBitflag dcb.bitfield 7 value }

/-- dcb.rs `set_fOutX` (bit 8). -/
def DCB.set_fOutX (dcb : DCB) (value : Bool) : DCB :=
  { dcb with bitfield := setBitflag dcb.bitfield 8 value }

/-- dcb.rs `set_fInX` (bit 9). -/
def DCB.set_fInX (dcb : DCB) (value : Bool) : DCB :=
  { dcb with bitfield := setBitflag dcb.bitfield 9 value }

/-- dcb.rs `set_fErrorChar` (bit 10). -/
def DCB.set_fErrorChar (dcb : DCB) (value : Bool) : DCB :=
  { dcb with bitfield := setBitflag dcb.bitfield 10 value }

/-- dcb.rs `set_fNull` (bit 11). -/
def DCB.set_fNull (dcb : DCB) (value : Bool) : DCB :=
  { dcb with bitfield := setBitflag dcb.bitfield 11 value }

/-- dcb.rs `set_fRtsControl` (bits 12-13). -/
def DCB.set_fRtsControl (dcb : DCB) (value : RtsControl) : DCB :=
  { dcb with bitfield := setTwoBitflag dcb.bitfield 12 value.code }

/-- dcb.rs `set_fAbortOnError` (bit 14). -/
def DCB.set_fAbortOnError (dcb : DCB) (value : Bool) : DCB :=
  { dcb with bitfield := setBitflag dcb.bitfield 14 value }

/-- dcb.rs `fOutxCtsFlow`: `(bitfield & (1 << 2)) != 0`. -/
def DCB.fOutxCtsFlow (dcb : DCB) : Bool :=
  dcb.bitfield &&& 1 <<< 2 != 0

/-- dcb.rs `fRtsControl`: decodes `(bitfield >> 12) & 0b11`.  Since the
masked value is below 4, the final branch is exactly the value-3 case and
the Rust `unreachable!()` arm cannot fire. -/
def DCB.fRtsControl (dcb : DCB) : RtsControl :=
  let bits := (dcb.bitfield >>> 12) &&& 3
  if bits = 0 then RtsControl.Disable
  else if bits = 1 then RtsControl.Enable
  else if bits = 2 then RtsControl.Handshake
  else RtsControl.Toggle

/-- dcb.rs `fOutX`: `(bitfield & (1 << 8)) != 0`. -/
def DCB.fOutX (dcb : DCB) : Bool :=
  dcb.bitfield &&& 1 <<< 8 != 0

/-- dcb.rs `fInX`: `(bitfield & (1 << 9)) != 0`. -/
def DCB.fInX (dcb : DCB) : Bool :=
  dcb.bitfield &&& 1 <<< 9 != 0

/-- dcb.rs `default`: fixed baseline applied at open before caller settings
(XON/XOFF trigger bytes, binary mode, DSR flow and sensitivity off, DTR
disabled, error-char substitution off, null stripping off, abort-on-error
off). -/
def dcb_default (dcb : DCB) : DCB :=
  let dcb := { dcb with XonChar := 0x11, XoffChar := 0x13, ErrorChar := 0x00,
                        EofChar := 0x1A }
  let dcb := dcb.set_fBinary true
  let dcb := dcb.set_fOutxDsrFlow false
  let dcb := dcb.set_fDtrControl DtrControl.Disable
  let dcb := dcb.set_fDsrSensitivity false
  let dcb := dcb.set_fErrorChar false
  let dcb := dcb.set_fNull false
  dcb.set_fAbortOnError false

/-- dcb.rs `set_baud_rate`: stores the rate unconditionally. -/
def set_baud_rate (dcb : DCB) (baud_rate : Nat) : DCB :=
  { dcb with BaudRate := baud_rate }

/-- dcb.rs `set_data_bits`.  The pair carries the block state at return
time: the `Unknown` arm returns before `ByteSize` is assigned, so the block
is handed back unchanged there. -/
def set_data_bits (dcb : DCB) (data_bits : DataBits) : Except Error Unit × DCB :=
  match data_bits with
  | .Five => (Except.ok (), { dcb with ByteSize := 5 })
  | .Six => (Except.ok (), { dcb with ByteSize := 6 })
  | .Seven => (Except.ok (), { dcb with ByteSize := 7 })
  | .Eight => (Except.ok (), { dcb with ByteSize := 8 })
  | .Unknown => (Except.error (Error.InvalidArgument "DataBits::Unknown"), dcb)

/-- dcb.rs `set_parity`: stores the Win32 parity constant, then sets the
`fParity` checking flag to `parity != Parity::None`; the `Unknown` arm
returns before any assignment. -/
def set_parity (dcb : DCB) (parity : Parity) : Except Error Unit × DCB :=
  match parity with
  | .None => (Except.ok (), ({ dcb with Parity := NOPARITY }).set_fParity false)
  | .Odd => (Except.ok (), ({ dcb with Parity := ODDPARITY }).set_fParity true)
  | .Even => (Except.ok (), ({ dcb with Parity := EVENPARITY }).set_fParity true)
  | .Unknown => (Except.error (Error.InvalidArgument "Parity::Unknown"), dcb)

/-- dcb.rs `set_stop_bits`; the `Unknown` arm returns before assignment. -/
def set_stop_bits (dcb : DCB) (stop_bits : StopBits) : Except Error Unit × DCB :=
  match stop_bits with
  | .One => (Except.ok (), { dcb with StopBits := ONESTOPBIT })
  | .Two => (Except.ok (), { dcb with StopBits := TWOSTOPBITS })
  | .OnePointFive => (Except.ok (), { dcb with StopBits := ONE5STOPBITS })
  | .Unknown => (Except.error (Error.InvalidArgument "StopBits::Unknown"), dcb)

/-- dcb.rs `set_flow_control`: fixed table over the four flow flags.  Note
the source's `Unknown` arm builds its message from the string
"StopBits::Unknown", not a flow-control name. -/
def set_flow_control (dcb : DCB) (flow_control : FlowControl) :
    Except Error Unit × DCB :=
  match flow_control with
  | .None =>
    let dcb := dcb.set_fOutxCtsFlow false
    let dcb := dcb.set_fRtsControl RtsControl.Disable
    let dcb := dcb.set_fOutX false
    let dcb := dcb.set_fInX false
    (Except.ok (), dcb)
  | .Software =>
    let dcb := dcb.set_fOutxCtsFlow false
    let dcb := dcb.set_fRtsControl RtsControl.Disable
    let dcb := dcb.set_fOutX true
    let dcb := dcb.set_fInX true
    (Except.ok (), dcb)
  | .Hardware =>
    let dcb := dcb.set_fOutxCtsFlow true
    let dcb := dcb.set_fRtsControl RtsControl.Enable
    let dcb := dcb.set_fOutX false
    let dcb := dcb.set_fInX false
    (Except.ok (), dcb)
  | .Unknown => (Except.error (Error.InvalidArgument "StopBits::Unknown"), dcb)

/-- Portable settings record (the non-path, non-timeout fields the open path
of com.rs feeds into the translator). -/
structure PortSettings where
  baud_rate : Nat
  data_bits : DataBits
  parity : Parity
  stop_bits : StopBits
  flow_control : FlowControl
deriving DecidableEq, Repr

/-- A settings value is concrete when no field holds its read-back-only
`Unknown` sentinel. -/
def PortSettings.concrete (s : PortSettings) : Prop :=
  s.data_bits ≠ DataBits.Unknown ∧ s.parity ≠ Parity.Unknown ∧
    s.stop_bits ≠ StopBits.Unknown ∧ s.flow_control ≠ FlowControl.Unknown

instance (s : PortSettings) : Decidable s.concrete := by
  unfold PortSettings.concrete
  infer_instance

/-- The settings-to-native pipeline of `COMPort::open` (com.rs lines 61-65):
`set_baud_rate`, then each fallible setter behind the `?` operator. -/
def applySettings (s : PortSettings) (dcb : DCB) : Except Error DCB :=
  let dcb := set_baud_rate dcb s.baud_rate
  match set_data_bits dcb s.data_bits with
  | (Except.error e, _) => Except.error e
  | (Except.ok _, dcb) =>
    match set_parity dcb s.parity with
    | (Except.error e, _) => Except.error e
    | (Except.ok _, dcb) =>
      match set_stop_bits dcb s.stop_bits with
      | (Except.error e, _) => Except.error e
      | (Except.ok _, dcb) =>
        match set_flow_control dcb s.flow_control with
        | (Except.error e, _) => Except.error e
        | (Except.ok _, dcb) => Except.ok dcb

/-- com.rs `COMPort::baudrate` applied to a fetched block. -/
def COMPort.baudrate (dcb : DCB) : Nat :=
  dcb.BaudRate

/-- com.rs `COMPort::data_bits` applied to a fetched block: decodes
`ByteSize`, falling back to the `Unknown` sentinel. -/
def COMPort.data_bits (dcb : DCB) : DataBits :=
  match dcb.ByteSize with
  | 5 => DataBits.Five
  | 6 => DataBits.Six
  | 7 => DataBits.Seven
  | 8 => DataBits.Eight
  | _ => DataBits.Unknown

/-- com.rs `COMPort::parity` applied to a fetched block. -/
def COMPort.parity (dcb : DCB) : Parity :=
  if dcb.Parity = ODDPARITY then Parity.Odd
  else if dcb.Parity = EVENPARITY then Parity.Even
  else if dcb.Parity = NOPARITY then Parity.None
  else Parity.Unknown

/-- com.rs `COMPort::stop_bits` applied to a fetched block. -/
def COMPort.stop_bits (dcb : DCB) : StopBits :=
  if dcb.StopBits = TWOSTOPBITS then StopBits.Two
  else if dcb.StopBits = ONESTOPBIT then StopBits.One
  else if dcb.StopBits = ONE5STOPBITS then StopBits.OnePointFive
  else StopBits.Unknown

/-- com.rs `COMPort::flow_control` applied to a fetched block: any hardware
flag classifies as `Hardware`, else any XON/XOFF flag as `Software`, else
`None`; no branch produces `Unknown`. -/
def COMPort.flow_control (dcb : DCB) : FlowControl :=
  if dcb.fOutxCtsFlow || dcb.fRtsControl != RtsControl.Disable then
    FlowControl.Hardware
  else if dcb.fOutX || dcb.fInX then FlowControl.Software
  else FlowControl.None

/-- Composite native-to-portable read-back: the five per-field getters of
com.rs bundled into one record (the spec's `from_native`). -/
def from_native (dcb : DCB) : PortSettings :=
  { baud_rate := COMPort.baudrate dcb
    data_bits := COMPort.data_bits dcb
    parity := COMPort.parity dcb
    stop_bits := COMPort.stop_bits dcb
    flow_control := COMPort.flow_control dcb }

/-- The zeroed block `DCB::default()` that `get_dcb` starts from. -/
def zeroDCB : DCB := {}

/-- Builder fields consumed by `COMPort::open` (com.rs usage of
`SerialPortBuilder`). -/
structure SerialPortBuilder where
  path : String
  baudrate : Nat
  data_bits : DataBits
  parity : Parity
  stop_bits : StopBits
  flow_control : FlowControl
deriving DecidableEq, Repr

/-- Outcomes of the native calls `COMPort::open` performs, in program order:
whether `CreateFileW` yields a valid handle, the block `GetCommState` would
report and whether it succeeds, whether `SetCommState` succeeds, and whether
each of the two `CreateEventW` calls yields a nonzero handle. -/
structure OpenEnv where
  createFileOk : Bool
  deviceDcb : DCB
  getCommStateOk : Bool
  setCommStateOk : Bool
  createEventROk : Bool
  createEventWOk : Bool
deriving DecidableEq, Repr

/-- Which native resources of one open attempt are currently acquired: the
device handle from `CreateFileW` and the two event (completion) objects from
`CreateEventW`. -/
structure OsResources where
  fileOpen : Bool := false
  rEventOpen : Bool := false
  wEventOpen : Bool := false
deriving DecidableEq, Repr

/-- The state with no native resource acquired. -/
def OsResources.none : OsResources := {}

/-- Handle owner produced by a successful open (com.rs `struct COMPort`; the
raw handle and OVERLAPPED words are tracked through `OsResources`). -/
structure COMPort where
  path : String
deriving DecidableEq, Repr

/-- com.rs `COMPort::open`, with each native call's outcome drawn from
`env`.  The second component is the set of native resources still acquired
when the function returns; a `?`-propagated error performs no cleanup in the
source, so the file handle stays acquired on those paths, and the
event-creation failure path closes both events but not the file handle. -/
def COMPort.open (env : OpenEnv) (builder : SerialPortBuilder) :
    Except Error COMPort × OsResources :=
  -- CreateFileW (path normalization does not affect resource outcomes)
  if !env.createFileOk then
    (Except.error Error.Io, OsResources.none)
  else
    let res : OsResources := { fileOpen := true }
    -- let mut dcb = dcb::get_dcb(handle)?;
    if !env.getCommStateOk then
      (Except.error Error.Io, res)
    else
      let dcb := dcb_default env.deviceDcb
      match applySettings
          { baud_rate := builder.baudrate, data_bits := builder.data_bits,
            parity := builder.parity, stop_bits := builder.stop_bits,
            flow_control := builder.flow_control } dcb with
      | Except.error e => (Except.error e, res)
      | Except.ok _ =>
        -- dcb::set_dcb(handle, dcb)?;
        if !env.setCommStateOk then
          (Except.error Error.Io, res)
        else
          -- r_event / w_event = CreateEventW(...)
          let res := { res with rEventOpen := env.createEventROk,
                                wEventOpen := env.createEventWOk }
          if !env.createEventROk || !env.createEventWOk then
            -- CloseHandle(r_event); CloseHandle(w_event);
            let res := { res with rEventOpen := false, wEventOpen := false }
            (Except.error Error.Io, res)
          else
            (Except.ok { path := builder.path }, res)

/-- com.rs `impl Drop for COMPort`: the destructor calls
`CloseHandle(self.handle)` and nothing else. -/
def COMPort.drop (res : OsResources) : OsResources :=
  { res with fileOpen := false }

/-- Modelled from the spec: the synchronous-over-asynchronous read of the
IOEngine (spec section 4.3).  No read/write implementation exists under
src/ (com.rs implements no `io::Read`), so the native transfer is modelled
by this environment: `immediate` is the byte count of an immediately
completing transfer, `signalTime` the instant the completion object would be
signaled for a pending transfer (`none` when the source produces no data),
`transferred` the count the completion query reports on wait-success, and
`partialOnCancel` the partial count reported after cancellation. -/
structure ReadEnv where
  immediate : Option Nat
  signalTime : Option Nat
  transferred : Nat
  partialOnCancel : Nat
deriving DecidableEq, Repr

/-- Result of one modelled read call: the outcome, the time the call blocked
(the completion-object wait is the only blocking point), and whether the
pending transfer was cancelled before returning. -/
structure ReadOutcome where
  result : Except Error Nat
  elapsed : Nat
  cancelled : Bool
deriving Repr

/-- Modelled from the spec: issue the transfer; on immediate completion
return that count; on pending, wait on the completion object for at most
`timeout`; on wait-timeout cancel the transfer and return the partial count
without error; on wait-success query the transferred count (spec section
4.3, synchronous-over-asynchronous model). -/
def engineRead (env : ReadEnv) (timeout : Nat) : ReadOutcome :=
  match env.immediate with
  | some n => { result := Except.ok n, elapsed := 0, cancelled := false }
  | none =>
    match env.signalTime with
    | some t =>
      if t ≤ timeout then
        { result := Except.ok env.transferred, elapsed := t, cancelled := false }
      else
        { result := Except.ok env.partialOnCancel, elapsed := timeout,
          cancelled := true }
    | none =>
      { result := Except.ok env.partialOnCancel, elapsed := timeout,
        cancelled := true }

/-- Port record produced by enumeration (crate `PortInfo` as used by
enumerate.rs: registry port name in `path`, device friendly name in `name`,
both defaulting to the empty string). -/
structure PortInfo where
  path : String := ""
  name : String := ""
deriving DecidableEq, Repr

/-- One device yielded by the device-information set: the outcome of its
`PortName` registry query and of its friendly-name property query (`none`
models the respective lookup failing). -/
structure DeviceEntry where
  portName : Option String
  friendlyName : Option String
deriving DecidableEq, Repr

/-- Environment of `available_ports`: whether `SetupDiGetClassDevsW`
returns a usable device-information set, and the devices
`SetupDiEnumDeviceInfo` yields from it before reporting no-more-items. -/
structure EnumEnv where
  classDevsOk : Bool
  devices : List DeviceEntry
deriving DecidableEq, Repr

/-- Record built for one enumerated device (enumerate.rs loop body): each
field is filled only when its lookup succeeds, otherwise the
`PortInfo::default()` empty string stands. -/
def portRecord (d : DeviceEntry) : PortInfo :=
  { path := d.portName.getD "", name := d.friendlyName.getD "" }

/-- enumerate.rs `available_ports`: the loop pushes one record per
enumerated device and ends when `SetupDiEnumDeviceInfo` fails with a nonzero
last error; an invalid device-information set (failed class query) yields no
devices, so the loop exits on its first iteration and the function still
returns `Ok`.  No path of the function returns an error. -/
def available_ports (env : EnumEnv) : Except Error (List PortInfo) :=
  let devs := if env.classDevsOk then env.devices else []
  Except.ok (devs.map portRecord)

/-- Bit `j` of the all-ones 32-bit mask xored with `m` flips bit `j` of `m`
below width 32. -/
theorem u32mask_xor_testBit (m j : Nat) :
    (U32MASK ^^^ m).testBit j = (decide (j < 32) ^^ m.testBit j) := by
  rw [Nat.testBit_xor]
  have h2 : U32MASK = 2 ^ 32 - 1 := by decide
  rw [h2, Nat.testBit_two_pow_sub_one]

/-- Bit `j` of `1 <<< i` singles out position `i`. -/
theorem one_shiftLeft_testBit (i j : Nat) : (1 <<< i).testBit j = decide (j = i) := by
  rw [Nat.one_shiftLeft]
  rcases eq_or_ne j i with h | h
  · simp [h, Nat.testBit_two_pow_self]
  · simp [h, Nat.testBit_two_pow_of_ne (Ne.symm h)]

/-- The two low bits of `3` are set and no others. -/
theorem three_testBit (k : Nat) : (3 : Nat).testBit k = decide (k < 2) := by
  match k with
  | 0 => decide
  | 1 => decide
  | k + 2 =>
    have h4 : (3 : Nat) < 2 ^ (k + 2) := by
      have h5 : (4 : Nat) ≤ 2 ^ (k + 2) := by
        calc (4 : Nat) = 2 ^ 2 := by norm_num
        _ ≤ 2 ^ (k + 2) := Nat.pow_le_pow_right (by norm_num) (by omega)
      omega
    simp [Nat.testBit_eq_false_of_lt h4]

/-- Bit `j` of `3 <<< i` singles out positions `i` and `i + 1`. -/
theorem three_shiftLeft_testBit (i j : Nat) :
    (3 <<< i).testBit j = (decide (j = i) || decide (j = i + 1)) := by
  rw [Nat.testBit_shiftLeft, three_testBit]
  simp only [← Bool.decide_and, ← Bool.decide_or, decide_eq_decide]
  omega

/-- The two-bit field read `(y >>> 12) &&& 3` in terms of bits 12 and 13. -/
theorem shr12_and_three (y : Nat) :
    (y >>> 12) &&& 3 = 2 * (y.testBit 13).toNat + (y.testBit 12).toNat := by
  have hmod : (y >>> 12) &&& 3 = (y >>> 12) % 4 := by
    have h := Nat.and_pow_two_sub_one_eq_mod (y >>> 12) 2
    norm_num at h
    exact h
  have h12 : y.testBit 12 = decide ((y >>> 12) % 2 = 1) := by
    rw [show (12 : Nat) = 12 + 0 from rfl, ← Nat.testBit_shiftRight, Nat.testBit_zero]
  have h13 : y.testBit 13 = decide ((y >>> 12) / 2 % 2 = 1) := by
    rw [show (13 : Nat) = 12 + 1 from rfl, ← Nat.testBit_shiftRight]
    rw [Nat.testBit_succ, Nat.testBit_zero]
  rw [hmod, h12, h13]
  generalize (y >>> 12) = z
  rcases Nat.mod_two_eq_zero_or_one z with h | h <;>
    rcases Nat.mod_two_eq_zero_or_one (z / 2) with h2 | h2 <;>
      simp [h, h2] <;> omega

/-- The Rust flag-read idiom `(b & (1 << i)) != 0` is `testBit`. -/
theorem and_one_shiftLeft_ne_zero (x i : Nat) : (x &&& 1 <<< i != 0) = x.testBit i := by
  rw [Nat.one_shiftLeft, Nat.and_two_pow]
  cases h : x.testBit i <;>
    simp [h, Nat.pos_iff_ne_zero, Nat.pos_pow_of_pos]

/-- Semantics of the shared single-bit setter: below width 32 it writes
`value` at position `n` and leaves every other bit alone. -/
theorem setBitflag_testBit (b n : Nat) (v : Bool) (j : Nat) (hn : n < 32)
    (hj : j < 32) :
    (setBitflag b n v).testBit j = if j = n then v else b.testBit j := by
  cases v with
  | true =>
    have hs : setBitflag b n true = b ||| 1 <<< n := rfl
    rw [hs, Nat.testBit_lor, one_shiftLeft_testBit]
    rcases eq_or_ne j n with h | h <;> simp [h]
  | false =>
    have hs : setBitflag b n false = b &&& (U32MASK ^^^ 1 <<< n) := rfl
    rw [hs, Nat.testBit_land, u32mask_xor_testBit, one_shiftLeft_testBit]
    rcases eq_or_ne j n with h | h <;> simp [h, hj] <;> omega

/-- Semantics of the shared two-bit setter: below width 32 it writes the two
low bits of `code` at positions `n` and `n + 1` and leaves every other bit
alone. -/
theorem setTwoBitflag_testBit (b n code j : Nat) (hn : n + 1 < 32)
    (hj : j < 32) :
    (setTwoBitflag b n code).testBit j =
      if j = n then (code &&& 3).testBit 0
      else if j = n + 1 then (code &&& 3).testBit 1
      else b.testBit j := by
  have hcode : code &&& 3 < 4 := by
    have h := Nat.and_le_right (n := code) (m := 3)
    omega
  rw [setTwoBitflag, Nat.testBit_lor, Nat.testBit_land, u32mask_xor_testBit,
    three_shiftLeft_testBit, Nat.testBit_shiftLeft]
  rcases eq_or_ne j n with h1 | h1
  · subst h1
    simp [hj]
  · rcases eq_or_ne j (n + 1) with h2 | h2
    · subst h2
      simp [hj, h1, Nat.add_sub_cancel_left]
    · rcases Nat.lt_or_ge j n with h3 | h3
      · simp [hj, h1, h2, Nat.not_le.mpr h3]
      · have h5 : (code &&& 3).testBit (j - n) = false := by
          apply Nat.testBit_eq_false_of_lt
          calc code &&& 3 < 4 := hcode
          _ = 2 ^ 2 := by norm_num
          _ ≤ 2 ^ (j - n) := Nat.pow_le_pow_right (by norm_num) (by omega)
        simp [hj, h1, h2, h3, h5]

/-- com.rs CTS-flow read as a bit test. -/
theorem fOutxCtsFlow_eq (dcb : DCB) : dcb.fOutxCtsFlow = dcb.bitfield.testBit 2 := by
  rw [DCB.fOutxCtsFlow, and_one_shiftLeft_ne_zero]

/-- com.rs XON-output read as a bit test. -/
theorem fOutX_eq (dcb : DCB) : dcb.fOutX = dcb.bitfield.testBit 8 := by
  rw [DCB.fOutX, and_one_shiftLeft_ne_zero]

/-- com.rs XON-input read as a bit test. -/
theorem fInX_eq (dcb : DCB) : dcb.fInX = dcb.bitfield.testBit 9 := by
  rw [DCB.fInX, and_one_shiftLeft_ne_zero]

/-- The RTS drive-mode read decoded from bits 12 and 13. -/
theorem fRtsControl_eq (dcb : DCB) :
    dcb.fRtsControl =
      if dcb.bitfield.testBit 13 then
        (if dcb.bitfield.testBit 12 then RtsControl.Toggle else RtsControl.Handshake)
      else
        (if dcb.bitfield.testBit 12 then RtsControl.Enable else RtsControl.Disable) := by
  rw [DCB.fRtsControl]
  rw [shr12_and_three]
  cases h13 : dcb.bitfield.testBit 13 <;> cases h12 : dcb.bitfield.testBit 12 <;> simp

/-- C5: dcb.rs `set_flow_control` realizes the fixed table: `None` clears
CTS-gated output, sets the RTS drive mode to `Disable` and clears both
XON/XOFF directions; `Software` enables XON/XOFF in both directions with the
hardware flags cleared; `Hardware` sets CTS-gated output and the RTS drive
mode `Enable` (the enabled RTS handshake line) with XON/XOFF cleared. -/
theorem set_flow_control_fixed_table (dcb : DCB) :
    ((set_flow_control dcb FlowControl.None).1 = Except.ok () ∧
      (set_flow_control dcb FlowControl.None).2.fOutxCtsFlow = false ∧
      (set_flow_control dcb FlowControl.None).2.fRtsControl = RtsControl.Disable ∧
      (set_flow_control dcb FlowControl.None).2.fOutX = false ∧
      (set_flow_control dcb FlowControl.None).2.fInX = false) ∧
    ((set_flow_control dcb FlowControl.Software).1 = Except.ok () ∧
      (set_flow_control dcb FlowControl.Software).2.fOutxCtsFlow = false ∧
      (set_flow_control dcb FlowControl.Software).2.fRtsControl = RtsControl.Disable ∧
      (set_flow_control dcb FlowControl.Software).2.fOutX = true ∧
      (set_flow_control dcb FlowControl.Software).2.fInX = true) ∧
    ((set_flow_control dcb FlowControl.Hardware).1 = Except.ok () ∧
      (set_flow_control dcb FlowControl.Hardware).2.fOutxCtsFlow = true ∧
      (set_flow_control dcb FlowControl.Hardware).2.fRtsControl = RtsControl.Enable ∧
      (set_flow_control dcb FlowControl.Hardware).2.fOutX = false ∧
      (set_flow_control dcb FlowControl.Hardware).2.fInX = false) := by
  have e1 : Nat.testBit 1 1 = false := rfl
  have e2 : Nat.testBit 1 0 = true := rfl
  refine ⟨⟨rfl, ?_, ?_, ?_, ?_⟩, ⟨rfl, ?_, ?_, ?_, ?_⟩, ⟨rfl, ?_, ?_, ?_, ?_⟩⟩ <;>
    simp [set_flow_control, DCB.set_fOutxCtsFlow, DCB.set_fRtsControl,
      DCB.set_fOutX, DCB.set_fInX, fOutxCtsFlow_eq, fOutX_eq, fInX_eq,
      fRtsControl_eq, setBitflag_testBit, setTwoBitflag_testBit,
      RtsControl.code, e1, e2]


/-- C4: evaluating dcb.rs `set_flow_control` at the failing input
`FlowControl::Unknown`: it rejects the sentinel and leaves the block
untouched, but the `InvalidArgument` message names `StopBits`, not the flow
control field. -/
theorem set_flow_control_unknown_names_stop_bits (dcb : DCB) :
    set_flow_control dcb FlowControl.Unknown =
      (Except.error (Error.InvalidArgument "StopBits::Unknown"), dcb) := rfl

/-- Block with CTS-gated output (hardware) and XON output (software) flags
both set: a mixed flow-flag combination. -/
def mixedFlagsBlock : DCB := { bitfield := (1 <<< 2) ||| (1 <<< 8) }

/-- Counterexample to C6: on a block mixing software and hardware flow
flags, the flow-control read-back returns `Hardware`, not the `Unknown`
sentinel the claim requires. -/
theorem flow_control_mixed_flags_not_unknown :
    mixedFlagsBlock.fOutxCtsFlow = true ∧ mixedFlagsBlock.fOutX = true ∧
      COMPort.flow_control mixedFlagsBlock = FlowControl.Hardware := by decide

/-- C6 (amended): the native-to-portable read-backs are total; data bits,
parity and stop bits return `Unknown` exactly when the native value matches
no known case, while the flow-control read-back never returns `Unknown`:
any block with CTS-gated output set classifies as `Hardware` no matter which
software flags are set. -/
theorem from_native_totality (dcb : DCB) :
    (COMPort.data_bits dcb = DataBits.Unknown ↔
      (dcb.ByteSize < 5 ∨ 8 < dcb.ByteSize)) ∧
    (COMPort.parity dcb = Parity.Unknown ↔ 2 < dcb.Parity) ∧
    (COMPort.stop_bits dcb = StopBits.Unknown ↔ 2 < dcb.StopBits) ∧
    COMPort.flow_control dcb ≠ FlowControl.Unknown ∧
    (dcb.fOutxCtsFlow = true → COMPort.flow_control dcb = FlowControl.Hardware) := by
  refine ⟨?_, ?_, ?_, ?_, ?_⟩
  · unfold COMPort.data_bits
    split <;> simp_all <;> omega
  · unfold COMPort.parity
    split_ifs with h1 h2 h3 <;> simp_all [ODDPARITY, EVENPARITY, NOPARITY] <;> omega
  · unfold COMPort.stop_bits
    split_ifs with h1 h2 h3 <;> simp_all [ONESTOPBIT, ONE5STOPBITS, TWOSTOPBITS] <;> omega
  · unfold COMPort.flow_control
    split_ifs <;> simp
  · intro h
    unfold COMPort.flow_control
    simp [h]

/-- Block whose numeric fields match no known case and whose CTS flag is
set; used to instantiate the totality theorem. -/
def oddValuesBlock : DCB :=
  { ByteSize := 9, Parity := 5, StopBits := 7, bitfield := 1 <<< 2 }

/-- Witness: the totality theorem evaluated on a block with out-of-range
numeric fields and the CTS flag set. -/
theorem from_native_totality_witness :
    COMPort.flow_control oddValuesBlock = FlowControl.Hardware ∧
      COMPort.data_bits oddValuesBlock = DataBits.Unknown :=
  ⟨(from_native_totality oddValuesBlock).2.2.2.2 (by decide),
   (from_native_totality oddValuesBlock).1.mpr (by decide)⟩

/-- `set_baud_rate` only touches `BaudRate`. -/
theorem set_baud_rate_bitfield (dcb : DCB) (baud : Nat) :
    (set_baud_rate dcb baud).bitfield = dcb.bitfield := rfl

/-- `set_data_bits` only touches `ByteSize` (frame facts). -/
theorem set_data_bits_frame (dcb : DCB) (db : DataBits) :
    (set_data_bits dcb db).2.BaudRate = dcb.BaudRate ∧
      (set_data_bits dcb db).2.Parity = dcb.Parity ∧
      (set_data_bits dcb db).2.StopBits = dcb.StopBits ∧
      (set_data_bits dcb db).2.bitfield = dcb.bitfield := by
  cases db <;> exact ⟨rfl, rfl, rfl, rfl⟩

/-- `set_parity` touches only the `Parity` byte and the parity-check flag
(bit 1 of the packed word). -/
theorem set_parity_frame (dcb : DCB) (p : Parity) :
    (set_parity dcb p).2.BaudRate = dcb.BaudRate ∧
      (set_parity dcb p).2.ByteSize = dcb.ByteSize ∧
      (set_parity dcb p).2.StopBits = dcb.StopBits := by
  cases p <;> exact ⟨rfl, rfl, rfl⟩

/-- `set_stop_bits` only touches `StopBits` (frame facts). -/
theorem set_stop_bits_frame (dcb : DCB) (sb : StopBits) :
    (set_stop_bits dcb sb).2.BaudRate = dcb.BaudRate ∧
      (set_stop_bits dcb sb).2.ByteSize = dcb.ByteSize ∧
      (set_stop_bits dcb sb).2.Parity = dcb.Parity ∧
      (set_stop_bits dcb sb).2.bitfield = dcb.bitfield := by
  cases sb <;> exact ⟨rfl, rfl, rfl, rfl⟩

/-- `set_flow_control` touches only the packed flag word. -/
theorem set_flow_control_frame (dcb : DCB) (fc : FlowControl) :
    (set_flow_control dcb fc).2.BaudRate = dcb.BaudRate ∧
      (set_flow_control dcb fc).2.ByteSize = dcb.ByteSize ∧
      (set_flow_control dcb fc).2.Parity = dcb.Parity ∧
      (set_flow_control dcb fc).2.StopBits = dcb.StopBits := by
  cases fc <;> exact ⟨rfl, rfl, rfl, rfl⟩

/-- Bits other than bit 1 are untouched by `set_parity`. -/
theorem set_parity_testBit (dcb : DCB) (p : Parity) (j : Nat) (hj : j < 32)
    (hne : j ≠ 1) :
    (set_parity dcb p).2.bitfield.testBit j = dcb.bitfield.testBit j := by
  cases p <;>
    simp [set_parity, DCB.set_fParity, setBitflag_testBit, hne, hj]

/-- Bits other than the five flow bits (2, 8, 9, 12, 13) are untouched by
`set_flow_control`. -/
theorem set_flow_control_testBit (dcb : DCB) (fc : FlowControl) (j : Nat)
    (hj : j < 32) (h2 : j ≠ 2) (h8 : j ≠ 8) (h9 : j ≠ 9) (h12 : j ≠ 12)
    (h13 : j ≠ 13) :
    (set_flow_control dcb fc).2.bitfield.testBit j = dcb.bitfield.testBit j := by
  cases fc <;>
    simp [set_flow_control, DCB.set_fOutxCtsFlow, DCB.set_fRtsControl,
      DCB.set_fOutX, DCB.set_fInX, setBitflag_testBit, setTwoBitflag_testBit,
      hj, h2, h8, h9, h12, h13]

/-- The fixed baseline flags hold right after `dcb::default`: binary mode
(bit 0) set, DSR sensitivity (bit 6) cleared, abort-on-error (bit 14)
cleared. -/
theorem dcb_default_testBit (dcb : DCB) :
    (dcb_default dcb).bitfield.testBit 0 = true ∧
      (dcb_default dcb).bitfield.testBit 6 = false ∧
      (dcb_default dcb).bitfield.testBit 14 = false := by
  refine ⟨?_, ?_, ?_⟩ <;>
    simp [dcb_default, DCB.set_fBinary, DCB.set_fOutxDsrFlow,
      DCB.set_fDtrControl, DCB.set_fDsrSensitivity, DCB.set_fErrorChar,
      DCB.set_fNull, DCB.set_fAbortOnError, setBitflag_testBit,
      setTwoBitflag_testBit, DtrControl.code, -Nat.testBit_zero]

/-- The data-bits read depends only on `ByteSize`. -/
theorem data_bits_read_congr (d d' : DCB) (h : d.ByteSize = d'.ByteSize) :
    COMPort.data_bits d = COMPort.data_bits d' := by
  unfold COMPort.data_bits
  rw [h]

/-- The parity read depends only on the `Parity` byte. -/
theorem parity_read_congr (d d' : DCB) (h : d.Parity = d'.Parity) :
    COMPort.parity d = COMPort.parity d' := by
  unfold COMPort.parity
  rw [h]

/-- The stop-bits read depends only on the `StopBits` byte. -/
theorem stop_bits_read_congr (d d' : DCB) (h : d.StopBits = d'.StopBits) :
    COMPort.stop_bits d = COMPort.stop_bits d' := by
  unfold COMPort.stop_bits
  rw [h]

/-- A concrete data-bits value reads back unchanged after `set_data_bits`. -/
theorem set_data_bits_read (dcb : DCB) (db : DataBits)
    (h : db ≠ DataBits.Unknown) :
    COMPort.data_bits (set_data_bits dcb db).2 = db := by
  cases db <;> simp_all [set_data_bits, COMPort.data_bits]

/-- A concrete parity value reads back unchanged after `set_parity`. -/
theorem set_parity_read (dcb : DCB) (p : Parity) (h : p ≠ Parity.Unknown) :
    COMPort.parity (set_parity dcb p).2 = p := by
  cases p <;>
    simp_all [set_parity, COMPort.parity, DCB.set_fParity, NOPARITY,
      ODDPARITY, EVENPARITY]

/-- A concrete stop-bits value reads back unchanged after `set_stop_bits`. -/
theorem set_stop_bits_read (dcb : DCB) (sb : StopBits)
    (h : sb ≠ StopBits.Unknown) :
    COMPort.stop_bits (set_stop_bits dcb sb).2 = sb := by
  cases sb <;>
    simp_all [set_stop_bits, COMPort.stop_bits, ONESTOPBIT, ONE5STOPBITS,
      TWOSTOPBITS]

/-- A concrete flow-control value reads back unchanged after
`set_flow_control`. -/
theorem set_flow_control_read (dcb : DCB) (fc : FlowControl)
    (h : fc ≠ FlowControl.Unknown) :
    COMPort.flow_control (set_flow_control dcb fc).2 = fc := by
  have e1 : Nat.testBit 1 1 = false := rfl
  have e2 : Nat.testBit 1 0 = true := rfl
  cases fc <;>
    simp_all [COMPort.flow_control, set_flow_control, DCB.set_fOutxCtsFlow,
      DCB.set_fRtsControl, DCB.set_fOutX, DCB.set_fInX, fOutxCtsFlow_eq,
      fOutX_eq, fInX_eq, fRtsControl_eq, setBitflag_testBit,
      setTwoBitflag_testBit, RtsControl.code, e1, e2]

/-- On concrete settings, the open-path translation pipeline succeeds and
returns exactly the block obtained by threading the five setters. -/
theorem applySettings_eq_ok (baud : Nat) (db : DataBits) (p : Parity)
    (sb : StopBits) (fc : FlowControl) (hdb : db ≠ DataBits.Unknown)
    (hp : p ≠ Parity.Unknown) (hsb : sb ≠ StopBits.Unknown)
    (hfc : fc ≠ FlowControl.Unknown) (dcb : DCB) :
    applySettings { baud_rate := baud, data_bits := db, parity := p,
                    stop_bits := sb, flow_control := fc } dcb =
      Except.ok (set_flow_control (set_stop_bits (set_parity
        (set_data_bits (set_baud_rate dcb baud) db).2 p).2 sb).2 fc).2 := by
  cases db <;> cases p <;> cases sb <;> cases fc <;> first | rfl | simp_all

/-- C3: for every concrete (no `Unknown` field) settings value, running the
open-path translation pipeline on the defaulted zero block and reading the
block back through the com.rs getters reproduces the settings exactly. -/
theorem to_native_from_native_round_trip (s : PortSettings) (h : s.concrete) :
    ∃ d, applySettings s (dcb_default zeroDCB) = Except.ok d ∧
      from_native d = s := by
  rcases s with ⟨baud, db, p, sb, fc⟩
  obtain ⟨hdb, hp, hsb, hfc⟩ := h
  refine ⟨_, applySettings_eq_ok baud db p sb fc hdb hp hsb hfc
    (dcb_default zeroDCB), ?_⟩
  have hByte : (set_flow_control (set_stop_bits (set_parity
      (set_data_bits (set_baud_rate (dcb_default zeroDCB) baud) db).2 p).2
      sb).2 fc).2.ByteSize =
      (set_data_bits (set_baud_rate (dcb_default zeroDCB) baud) db).2.ByteSize := by
    rw [(set_flow_control_frame _ fc).2.1, (set_stop_bits_frame _ sb).2.1,
      (set_parity_frame _ p).2.1]
  have hPar : (set_flow_control (set_stop_bits (set_parity
      (set_data_bits (set_baud_rate (dcb_default zeroDCB) baud) db).2 p).2
      sb).2 fc).2.Parity =
      (set_parity (set_data_bits (set_baud_rate (dcb_default zeroDCB) baud)
        db).2 p).2.Parity := by
    rw [(set_flow_control_frame _ fc).2.2.1, (set_stop_bits_frame _ sb).2.2.1]
  have hStop : (set_flow_control (set_stop_bits (set_parity
      (set_data_bits (set_baud_rate (dcb_default zeroDCB) baud) db).2 p).2
      sb).2 fc).2.StopBits =
      (set_stop_bits (set_parity (set_data_bits (set_baud_rate
        (dcb_default zeroDCB) baud) db).2 p).2 sb).2.StopBits :=
    (set_flow_control_frame _ fc).2.2.2
  have hBaud : (set_flow_control (set_stop_bits (set_parity
      (set_data_bits (set_baud_rate (dcb_default zeroDCB) baud) db).2 p).2
      sb).2 fc).2.BaudRate = baud := by
    rw [(set_flow_control_frame _ fc).1, (set_stop_bits_frame _ sb).1,
      (set_parity_frame _ p).1, (set_data_bits_frame _ db).1]
    rfl
  unfold from_native COMPort.baudrate
  simp only [PortSettings.mk.injEq]
  refine ⟨hBaud, ?_, ?_, ?_, set_flow_control_read _ fc hfc⟩
  · rw [data_bits_read_congr _ _ hByte]
    exact set_data_bits_read _ db hdb
  · rw [parity_read_congr _ _ hPar]
    exact set_parity_read _ p hp
  · rw [stop_bits_read_congr _ _ hStop]
    exact set_stop_bits_read _ sb hsb

/-- Concrete settings value used to instantiate the round-trip theorem. -/
def sampleSettings : PortSettings :=
  { baud_rate := 9600, data_bits := DataBits.Eight, parity := Parity.None,
    stop_bits := StopBits.One, flow_control := FlowControl.None }

/-- Witness: the round trip evaluated at 9600-8-N-1 with no flow control. -/
theorem to_native_from_native_round_trip_witness :
    PortSettings.concrete sampleSettings ∧
      ∃ d, applySettings sampleSettings (dcb_default zeroDCB) = Except.ok d ∧
        from_native d = sampleSettings :=
  ⟨by decide, to_native_from_native_round_trip sampleSettings (by decide)⟩

/-- Threading any settings through the five setters after `dcb::default`
leaves the baseline flags intact: none of the setters touches bits 0, 6 or
14 (holds even for `Unknown` fields, whose setter leaves the block as is). -/
theorem pipeline_baseline (b : DCB) (baud : Nat) (db : DataBits) (p : Parity)
    (sb : StopBits) (fc : FlowControl) :
    (set_flow_control (set_stop_bits (set_parity (set_data_bits
        (set_baud_rate (dcb_default b) baud) db).2 p).2 sb).2 fc).2.bitfield.testBit 0
        = true ∧
      (set_flow_control (set_stop_bits (set_parity (set_data_bits
        (set_baud_rate (dcb_default b) baud) db).2 p).2 sb).2 fc).2.bitfield.testBit 6
        = false ∧
      (set_flow_control (set_stop_bits (set_parity (set_data_bits
        (set_baud_rate (dcb_default b) baud) db).2 p).2 sb).2 fc).2.bitfield.testBit 14
        = false := by
  have h0 := dcb_default_testBit b
  refine ⟨?_, ?_, ?_⟩
  · rw [set_flow_control_testBit _ fc 0 (by omega) (by omega) (by omega)
      (by omega) (by omega) (by omega), (set_stop_bits_frame _ sb).2.2.2,
      set_parity_testBit _ p 0 (by omega) (by omega),
      (set_data_bits_frame _ db).2.2.2, set_baud_rate_bitfield]
    exact h0.1
  · rw [set_flow_control_testBit _ fc 6 (by omega) (by omega) (by omega)
      (by omega) (by omega) (by omega), (set_stop_bits_frame _ sb).2.2.2,
      set_parity_testBit _ p 6 (by omega) (by omega),
      (set_data_bits_frame _ db).2.2.2, set_baud_rate_bitfield]
    exact h0.2.1
  · rw [set_flow_control_testBit _ fc 14 (by omega) (by omega) (by omega)
      (by omega) (by omega) (by omega), (set_stop_bits_frame _ sb).2.2.2,
      set_parity_testBit _ p 14 (by omega) (by omega),
      (set_data_bits_frame _ db).2.2.2, set_baud_rate_bitfield]
    exact h0.2.2

/-- A settings value with some `Unknown` field makes the translation
pipeline abort with an error. -/
theorem applySettings_not_concrete (s : PortSettings) (hc : ¬ s.concrete)
    (dcb : DCB) : ∃ e, applySettings s dcb = Except.error e := by
  rcases s with ⟨baud, db, p, sb, fc⟩
  cases db <;> cases p <;> cases sb <;> cases fc <;>
    first
      | exact ⟨_, rfl⟩
      | exact absurd (by simp [PortSettings.concrete]) hc

/-- C7: whatever settings the caller supplies, a block produced by applying
defaults and then the translation pipeline keeps the fixed baseline flags:
binary mode (bit 0) set, DSR sensitivity (bit 6) clear and abort-on-error
(bit 14) clear. -/
theorem apply_defaults_then_settings_baseline (s : PortSettings) (b : DCB)
    (d : DCB) (h : applySettings s (dcb_default b) = Except.ok d) :
    d.bitfield.testBit 0 = true ∧ d.bitfield.testBit 6 = false ∧
      d.bitfield.testBit 14 = false := by
  by_cases hc : s.concrete
  · rcases s with ⟨baud, db, p, sb, fc⟩
    obtain ⟨hdb, hp, hsb, hfc⟩ := hc
    rw [applySettings_eq_ok baud db p sb fc hdb hp hsb hfc] at h
    obtain rfl := Except.ok.inj h
    exact pipeline_baseline ..
  · exfalso
    rcases applySettings_not_concrete s hc (dcb_default b) with ⟨e, he⟩
    rw [he] at h
    exact Except.noConfusion h

/-- Witness: the baseline theorem evaluated at the sample settings on the
zero block. -/
theorem apply_defaults_then_settings_baseline_witness :
    ((applySettings sampleSettings (dcb_default zeroDCB)).toOption.getD
        zeroDCB).bitfield.testBit 0 = true ∧
      ((applySettings sampleSettings (dcb_default zeroDCB)).toOption.getD
        zeroDCB).bitfield.testBit 6 = false ∧
      ((applySettings sampleSettings (dcb_default zeroDCB)).toOption.getD
        zeroDCB).bitfield.testBit 14 = false :=
  apply_defaults_then_settings_baseline sampleSettings zeroDCB _ rfl

/-- Environment where the device vanishes right after `CreateFileW`: the
file handle is acquired but `GetCommState` fails. -/
def leakEnv : OpenEnv :=
  { createFileOk := true, deviceDcb := zeroDCB, getCommStateOk := false,
    setCommStateOk := true, createEventROk := true, createEventWOk := true }

/-- Builder used to instantiate the lifecycle theorems. -/
def sampleBuilder : SerialPortBuilder :=
  { path := "COM3", baudrate := 9600, data_bits := DataBits.Eight,
    parity := Parity.None, stop_bits := StopBits.One,
    flow_control := FlowControl.None }

/-- C1 (failing-input evaluation): when `GetCommState` fails after the
native handle was acquired, `COMPort::open` returns the error while the
file handle is still acquired — the failure path leaks the native
resource instead of releasing it. -/
theorem open_getcommstate_failure_leaks_handle :
    (COMPort.open leakEnv sampleBuilder).1 = Except.error Error.Io ∧
      (COMPort.open leakEnv sampleBuilder).2.fileOpen = true ∧
      (COMPort.open leakEnv sampleBuilder).2 ≠ OsResources.none := by
  refine ⟨rfl, rfl, by decide⟩

/-- Environment in which every native call of open succeeds. -/
def goodEnv : OpenEnv :=
  { createFileOk := true, deviceDcb := zeroDCB, getCommStateOk := true,
    setCommStateOk := true, createEventROk := true, createEventWOk := true }

/-- C2 (failing-input evaluation): after a fully successful open, dropping
the handle closes only the file handle; both per-direction completion
objects created at open remain acquired and outlive the handle. -/
theorem drop_leaks_completion_objects :
    (COMPort.open goodEnv sampleBuilder).2 =
      { fileOpen := true, rEventOpen := true, wEventOpen := true } ∧
      COMPort.drop (COMPort.open goodEnv sampleBuilder).2 =
        { fileOpen := false, rEventOpen := true, wEventOpen := true } ∧
      (COMPort.drop (COMPort.open goodEnv sampleBuilder).2).rEventOpen = true ∧
      (COMPort.drop (COMPort.open goodEnv sampleBuilder).2).wEventOpen = true := by
  refine ⟨by decide, by decide, by decide, by decide⟩

/-- C8: a read issued against a source producing no data (no immediate
completion, completion object never signaled, zero bytes transferred at
cancellation) blocks for at most the timeout, cancels the pending transfer
and returns zero bytes without error. -/
theorem read_no_data_times_out (env : ReadEnv) (T : Nat)
    (h1 : env.immediate = Option.none) (h2 : env.signalTime = Option.none)
    (h3 : env.partialOnCancel = 0) :
    (engineRead env T).result = Except.ok 0 ∧ (engineRead env T).elapsed ≤ T ∧
      (engineRead env T).cancelled = true := by
  simp [engineRead, h1, h2, h3]

/-- Read environment of a silent data source. -/
def silentReadEnv : ReadEnv :=
  { immediate := Option.none, signalTime := Option.none, transferred := 0,
    partialOnCancel := 0 }

/-- Witness: the timeout-bound theorem evaluated at a silent source with a
100-unit timeout. -/
theorem read_no_data_times_out_witness :
    (engineRead silentReadEnv 100).result = Except.ok 0 ∧
      (engineRead silentReadEnv 100).elapsed ≤ 100 ∧
      (engineRead silentReadEnv 100).cancelled = true :=
  read_no_data_times_out silentReadEnv 100 rfl rfl rfl

/-- Environment where the device-class query itself fails while a device
would otherwise have been present. -/
def classQueryFailEnv : EnumEnv :=
  { classDevsOk := false,
    devices := [{ portName := some "COM3", friendlyName := some "USB Serial" }] }

/-- Counterexample to C9: with the class-level query failing,
`available_ports` returns `Ok` with an empty list, not an error. -/
theorem available_ports_class_failure_not_error :
    available_ports classQueryFailEnv = Except.ok [] := rfl

/-- C9 (amended): if the device-class query fails, `available_ports`
returns an empty successful listing — the enumeration loop sees no devices
and the function has no error path. -/
theorem available_ports_class_failure_empty (env : EnumEnv)
    (h : env.classDevsOk = false) : available_ports env = Except.ok [] := by
  simp [available_ports, h]

/-- Enumeration environment with a failed class query and one anonymous
device. -/
def classQueryFailEnv2 : EnumEnv :=
  { classDevsOk := false,
    devices := [{ portName := Option.none, friendlyName := Option.none }] }

/-- Witness: the amended C9 theorem evaluated on a failing class query with
one pending device record. -/
theorem available_ports_class_failure_empty_witness :
    available_ports classQueryFailEnv2 = Except.ok [] :=
  available_ports_class_failure_empty classQueryFailEnv2 rfl

/-- C10: a device whose friendly-name lookup fails still contributes a
record (with an empty name and its own registry path) at its own position,
the listing keeps one record per device, and every other record is
determined solely by its own device's lookups. -/
theorem available_ports_name_failure_resilient (env : EnumEnv) (i : Nat)
    (h : i < env.devices.length) (hok : env.classDevsOk = true)
    (hname : (env.devices.get ⟨i, h⟩).friendlyName = Option.none) :
    available_ports env = Except.ok (env.devices.map portRecord) ∧
      (env.devices.map portRecord).length = env.devices.length ∧
      ((env.devices.map portRecord).get ⟨i, by
        rw [List.length_map]
        exact h⟩).name = "" ∧
      ((env.devices.map portRecord).get ⟨i, by
        rw [List.length_map]
        exact h⟩).path = (env.devices.get ⟨i, h⟩).portName.getD "" ∧
      ∀ (j : Nat) (hj : j < env.devices.length),
        (env.devices.map portRecord).get ⟨j, by
          rw [List.length_map]
          exact hj⟩ = portRecord (env.devices.get ⟨j, hj⟩) := by
  refine ⟨by simp [available_ports, hok], by simp, ?_, ?_, ?_⟩
  · simp only [List.get_eq_getElem, List.getElem_map]
    simp only [List.get_eq_getElem] at hname
    simp [portRecord, hname]
  · simp only [List.get_eq_getElem, List.getElem_map]
    simp [portRecord]
  · intro j hj
    simp only [List.get_eq_getElem, List.getElem_map]

/-- Enumeration environment with two devices, the second of which fails its
friendly-name lookup. -/
def twoDeviceEnv : EnumEnv :=
  { classDevsOk := true,
    devices := [{ portName := some "COM1", friendlyName := some "Dev A" },
                { portName := some "COM2", friendlyName := Option.none }] }

/-- Witness: the resilience theorem evaluated on the two-device
environment at the failing device's index. -/
theorem available_ports_name_failure_resilient_witness :
    available_ports twoDeviceEnv =
      Except.ok (twoDeviceEnv.devices.map portRecord) ∧
      ((twoDeviceEnv.devices.map portRecord).get ⟨1, by decide⟩).name = "" :=
  ⟨(available_ports_name_failure_resilient twoDeviceEnv 1 (by decide) rfl
      (by decide)).1,
   (available_ports_name_failure_resilient twoDeviceEnv 1 (by decide) rfl
      (by decide)).2.2.1⟩
